import Mathlib

/-!
Shallow embedding of the Estimaro estimate-generation core
(`Backend/app/services/`): calculation, vendor scoring, part-condition
detection, add-on detection, and the orchestration pipeline's
error/success bookkeeping.  Python `Decimal`/`float` arithmetic is
modelled over `ℚ`; Python strings over `String`/`List Char`.
-/

namespace Estimaro

/-! ### Python string primitives

`pat in text` on Python strings is substring containment; we model
strings by their character lists. -/

/-- `hayStartsWith pat text`: the character list `text` starts with `pat`
(Python `str.startswith`, used to define substring containment). -/
def hayStartsWith : List Char → List Char → Bool
  | [], _ => true
  | _ :: _, [] => false
  | p :: ps, c :: cs => p == c && hayStartsWith ps cs

/-- `containsSub pat text`: `pat` occurs as a contiguous substring of
`text` — the model of Python's `pat in text` for strings. -/
def containsSub : List Char → List Char → Bool
  | pat, [] => hayStartsWith pat []
  | pat, c :: cs => hayStartsWith pat (c :: cs) || containsSub pat cs

/-- Python `pat in text` on `String`s. -/
def pyIn (pat text : String) : Bool :=
  containsSub pat.data text.data

/-! ### Decimal rounding

`Decimal.quantize(Decimal("0.01"), rounding=ROUND_HALF_UP)` rounds to
cents with ties going away from zero. -/

/-- Round a rational to an integer, half away from zero
(Python decimal `ROUND_HALF_UP`). -/
def roundHalfUp (q : ℚ) : ℤ :=
  if q < 0 then -⌊-q + 1/2⌋ else ⌊q + 1/2⌋

/-- `x.quantize(Decimal("0.01"), rounding=ROUND_HALF_UP)`. -/
def quantCents (q : ℚ) : ℚ :=
  (roundHalfUp (100 * q) : ℚ) / 100

/-! ### Calculation Engine (`calculation_service.py`) -/

/-- `LaborItemSchema`: the fields read by the calculation service. -/
structure LaborItem where
  description : String
  hours : ℚ
  rate : ℚ
  total : ℚ
  deriving Repr, DecidableEq

/-- `PartItemSchema`: the fields read by the calculation service. -/
structure PartItem where
  description : String
  partNumber : String
  quantity : ℚ
  cost : ℚ
  markup : ℚ
  total : ℚ
  vendor : String
  deriving Repr, DecidableEq

/-- `CleaningKitSchema` data from the `CLEANING_KITS` table. -/
structure CleaningKit where
  name : String
  includes : List String
  price : ℚ
  deriving Repr, DecidableEq

/-- `CalculationBreakdownSchema`. -/
structure CalculationBreakdown where
  laborTotal : ℚ
  partsTotal : ℚ
  subtotal : ℚ
  taxAmount : ℚ
  cleaningKit : Option CleaningKit
  total : ℚ
  deriving Repr, DecidableEq

/-- Static `CLEANING_KITS` lookup: `CLEANING_KITS.get(job_type,
CLEANING_KITS['general'])`. -/
def get_cleaning_kit (job_type : String) : CleaningKit :=
  if job_type = "brake_service" then
    ⟨"Brake Service Cleaning Kit",
     ["Brake cleaner", "Caliper grease", "Disposable gloves"], 15⟩
  else if job_type = "engine_repair" then
    ⟨"Engine Service Cleaning Kit",
     ["Degreaser", "Shop towels", "Oil absorbent"], 20⟩
  else if job_type = "ac_service" then
    ⟨"AC Service Cleaning Kit",
     ["UV dye", "Leak sealant", "O-ring lubricant"], 18⟩
  else if job_type = "transmission" then
    ⟨"Transmission Service Cleaning Kit",
     ["Fluid funnel", "Shop towels", "Spill mat"], 16⟩
  else if job_type = "suspension" then
    ⟨"Suspension Service Cleaning Kit",
     ["Penetrating oil", "Shop towels", "Grease"], 14⟩
  else
    ⟨"General Service Cleaning Kit",
     ["All-purpose cleaner", "Shop towels"], 12⟩

/-- `CalculationService.calculate_labor_total`:
`Σ(hours × rate)` then quantize to cents, `ROUND_HALF_UP`. -/
def calculate_labor_total (labor_items : List LaborItem) : ℚ :=
  quantCents (labor_items.foldl (fun t i => t + i.hours * i.rate) 0)

/-- `CalculationService.calculate_parts_total`:
`Σ((cost × quantity) × (1 + markup/100))` then quantize to cents. -/
def calculate_parts_total (parts_items : List PartItem) : ℚ :=
  quantCents (parts_items.foldl
    (fun t i => t + (i.cost * i.quantity) * (1 + i.markup / 100)) 0)

/-- `settings.DEFAULT_TAX_RATE` (`config.py`), the instance default. -/
def DEFAULT_TAX_RATE : ℚ := 8 / 100

/-- `CalculationService.calculate_estimate`.  `tax_rate or self.tax_rate`:
a zero (falsy) tax rate falls back to the instance default. -/
def calculate_estimate (labor_items : List LaborItem)
    (parts_items : List PartItem) (job_type : String)
    (tax_rate : ℚ) (include_cleaning_kit : Bool) : CalculationBreakdown :=
  let effective_tax_rate := if tax_rate = 0 then DEFAULT_TAX_RATE else tax_rate
  let labor_total := calculate_labor_total labor_items
  let parts_total := calculate_parts_total parts_items
  let subtotal := labor_total + parts_total
  let tax_amount := quantCents (subtotal * effective_tax_rate)
  let kit : Option CleaningKit :=
    if include_cleaning_kit then some (get_cleaning_kit job_type) else none
  let cleaning_kit_price : ℚ := match kit with
    | some k => k.price
    | none => 0
  { laborTotal := labor_total
    partsTotal := parts_total
    subtotal := subtotal
    taxAmount := tax_amount
    cleaningKit := kit
    total := subtotal + tax_amount + cleaning_kit_price }

/-- Price contribution of the optional cleaning-kit field. -/
def kitPrice : Option CleaningKit → ℚ
  | some k => k.price
  | none => 0

/-! ### Confidence scoring (`AutoGenerateService._calculate_confidence_score`) -/

/-- The orchestrator's confidence verdict. -/
structure ConfidenceScore where
  score : ℤ
  percentage : String
  threshold : String
  action : String
  deriving Repr, DecidableEq

/-- Per-step deduction: 30 for a failed critical step
(`vehicle_decode`, `labor_lookup`), 10 for any other failed step. -/
def stepDeduction (st : String × Bool) : ℤ :=
  if st.2 then 0
  else if st.1 == "vehicle_decode" || st.1 == "labor_lookup" then 30
  else 10

/-- Per-flag deduction: RED 20, WARNING 10, YELLOW 5, anything else 0. -/
def flagDeduction (t : String) : ℤ :=
  if t == "RED" then 20
  else if t == "WARNING" then 10
  else if t == "YELLOW" then 5
  else 0

/-- `_calculate_confidence_score`: start at 100, subtract per failed step
and per flag, clamp below at 0, then map to threshold/action. -/
def calculate_confidence_score (steps : List (String × Bool))
    (flagTypes : List String) : ConfidenceScore :=
  let afterSteps := steps.foldl (fun sc st => sc - stepDeduction st) 100
  let afterFlags := flagTypes.foldl (fun sc t => sc - flagDeduction t) afterSteps
  let score := max 0 afterFlags
  let threshold := if 90 ≤ score then "HIGH"
    else if 70 ≤ score then "MEDIUM" else "LOW"
  let action := if 90 ≤ score then "Auto-proceed"
    else if 70 ≤ score then "Quick advisor review recommended"
    else "Human advisor required"
  { score := score
    percentage := toString score ++ "%"
    threshold := threshold
    action := action }

/-- A failed step is critical when named `vehicle_decode` or `labor_lookup`. -/
def isFailedCritical (st : String × Bool) : Bool :=
  !st.2 && (st.1 == "vehicle_decode" || st.1 == "labor_lookup")

/-- A failed step with any other name. -/
def isFailedNonCritical (st : String × Bool) : Bool :=
  !st.2 && !(st.1 == "vehicle_decode" || st.1 == "labor_lookup")

/-! ### Orchestration pipeline bookkeeping
(`AutoGenerateService.generate_estimate`)

The payloads of the external collaborators (VIN decoder, NHTSA recall
fetch, labor lookup, parts search, vendor comparison) are abstracted to
the fields the orchestrator's control flow reads; each fallible step
body is an `Except String` carrying the exception message the `except`
branch would stringify. -/

/-- Decoded vehicle info (step 1 payload). -/
structure VehicleInfo where
  vin : String
  year : ℕ
  make : String
  model : String
  trim : String
  engine : String
  deriving Repr, DecidableEq

/-- Fields of the recall-check payload read by the orchestrator. -/
structure RecallData where
  success : Bool
  has_matching_recall : Bool
  deriving Repr, DecidableEq

/-- Fields of the warranty-check payload read by the orchestrator;
`has_flag` is whether `warranty_result["flag"]` is non-null. -/
structure WarrantyData where
  success : Bool
  has_flag : Bool
  deriving Repr, DecidableEq

/-- Labor-lookup payload fields read by the orchestrator. -/
structure LaborData where
  jobDescription : String
  laborHours : ℚ
  source : String
  category : String
  difficulty : String
  deriving Repr, DecidableEq

/-- One parts-search result row. -/
structure PartResult where
  description : String
  partNumber : Option String
  manufacturer : Option String
  price : ℚ
  isOEM : Bool
  category : String
  deriving Repr, DecidableEq

/-- Fields of the part-condition payload read by the orchestrator;
`has_flag` is whether `condition_result["flag"]` is non-null. -/
structure ConditionStepData where
  success : Bool
  has_flag : Bool
  deriving Repr, DecidableEq

/-- One pipeline run's collaborator/step-body outcomes. -/
structure PipelineInputs where
  vin_decode : Except String VehicleInfo
  recall_check : Except String RecallData
  odometer : ℕ
  warranty_check : Except String WarrantyData
  labor_lookup : Except String (Option LaborData)
  parts_search : Except String (List PartResult)
  vendor_compare : Except String Bool
  part_conditions : Except String ConditionStepData
  addon_detection : Except String ℕ
  calculation : Except String Unit
  deriving Repr

/-- The orchestrator's bookkeeping output: per-step success records in
declaration order, flag types in append order, pipeline-level error
strings in append order, and the overall success boolean. -/
structure PipelineResult where
  steps : List (String × Bool)
  flags : List String
  errors : List String
  confidence : ConfidenceScore
  success : Bool
  deriving Repr, DecidableEq

/-- The overall-success filter: `"VIN" in e or "Labor" in e`. -/
def isCriticalError (e : String) : Bool :=
  pyIn "VIN" e || pyIn "Labor" e

/-- Step-1 contribution to `result["errors"]`. -/
def vinErrsOf : Except String VehicleInfo → List String
  | .ok _ => []
  | .error e => ["VIN Decode failed: " ++ e]

/-- Step-4 contribution to `result["errors"]`. -/
def lbErrsOf : Except String (Option LaborData) → List String
  | .ok (some _) => []
  | .ok none => ["Labor lookup returned no results"]
  | .error e => ["Labor lookup failed: " ++ e]

/-- Step-5 contribution to `result["errors"]`. -/
def psErrsOf : Except String (List PartResult) → List String
  | .ok _ => []
  | .error e => ["Parts search failed: " ++ e]

/-- Step-9 contribution to `result["errors"]`. -/
def calcErrsOf : Except String Unit → List String
  | .ok _ => []
  | .error e => ["Calculation failed: " ++ e]

/-- `AutoGenerateService.generate_estimate`, restricted to its step,
flag, error and overall-success bookkeeping (estimate payload assembly
and the vendor price back-fill do not touch these lists). -/
def generate_estimate (inp : PipelineInputs) : PipelineResult :=
  let vdOk := match inp.vin_decode with
    | .ok _ => true
    | .error _ => false
  let rcOk := match inp.recall_check with
    | .ok r => r.success
    | .error _ => false
  let rcFlags := match inp.recall_check with
    | .ok r => if r.has_matching_recall then ["RED"] else []
    | .error _ => []
  let warrantyRuns := vdOk && decide (0 < inp.odometer)
  let wcOk := if warrantyRuns then
      match inp.warranty_check with
      | .ok w => w.success
      | .error _ => false
    else true
  let wcFlags := if warrantyRuns then
      match inp.warranty_check with
      | .ok w => if w.has_flag then ["WARNING"] else []
      | .error _ => []
    else []
  let lbOk := match inp.labor_lookup with
    | .ok (some _) => true
    | .ok none => false
    | .error _ => false
  let psOk := match inp.parts_search with
    | .ok _ => true
    | .error _ => false
  let partsList := match inp.parts_search with
    | .ok l => l
    | .error _ => []
  let vcOk := if partsList.isEmpty then true
    else match inp.vendor_compare with
      | .ok b => b
      | .error _ => false
  let pcOk := if partsList.isEmpty then true
    else match inp.part_conditions with
      | .ok c => c.success
      | .error _ => false
  let pcFlags := if partsList.isEmpty then []
    else match inp.part_conditions with
      | .ok c => if c.has_flag then ["YELLOW"] else []
      | .error _ => []
  let adOk := match inp.addon_detection with
    | .ok _ => true
    | .error _ => false
  let adFlags := match inp.addon_detection with
    | .ok n => List.replicate n "INFO"
    | .error _ => []
  let calcOk := match inp.calculation with
    | .ok _ => true
    | .error _ => false
  let errors := vinErrsOf inp.vin_decode ++ lbErrsOf inp.labor_lookup
    ++ psErrsOf inp.parts_search ++ calcErrsOf inp.calculation
  let steps := [("vehicle_decode", vdOk), ("recall_check", rcOk),
    ("warranty_check", wcOk), ("labor_lookup", lbOk),
    ("parts_search", psOk), ("vendor_compare", vcOk),
    ("part_conditions", pcOk), ("addon_detection", adOk),
    ("calculation", calcOk)]
  let flags := rcFlags ++ wcFlags ++ pcFlags ++ adFlags
  { steps := steps
    flags := flags
    errors := errors
    confidence := calculate_confidence_score steps flags
    success := (errors.filter isCriticalError).length == 0 }

/-- A run in which every critical step succeeds and only the non-critical
parts-search step fails, with a collaborator message that happens to
mention "VIN". -/
def inputsPartsVinMsg : PipelineInputs :=
  { vin_decode := .ok ⟨"1HGBH41JXMN109186", 2020, "HONDA", "CIVIC", "LX", "1.5L"⟩
    recall_check := .ok ⟨true, false⟩
    odometer := 0
    warranty_check := .ok ⟨true, false⟩
    labor_lookup := .ok (some ⟨"Front brake pads", 3/2, "ALLDATA", "Brakes", "B"⟩)
    parts_search := .error "VIN database timeout"
    vendor_compare := .ok true
    part_conditions := .ok ⟨true, false⟩
    addon_detection := .ok 0
    calculation := .ok () }

/-- A run in which only the Calculation step fails, with a message that
mentions neither "VIN" nor "Labor". -/
def inputsCalcFails : PipelineInputs :=
  { vin_decode := .ok ⟨"1HGBH41JXMN109186", 2020, "HONDA", "CIVIC", "LX", "1.5L"⟩
    recall_check := .ok ⟨true, false⟩
    odometer := 0
    warranty_check := .ok ⟨true, false⟩
    labor_lookup := .ok (some ⟨"Front brake pads", 3/2, "ALLDATA", "Brakes", "B"⟩)
    parts_search := .ok []
    vendor_compare := .ok true
    part_conditions := .ok ⟨true, false⟩
    addon_detection := .ok 0
    calculation := .error "unsupported operand type" }

/-! ### Vendor Scoring Engine (`vendor_service.py`)

Python `float` arithmetic is modelled over `ℚ`; `round(x, 1)` is
round-half-to-even to one decimal place. -/

/-- Round a rational to an integer, half to even (Python `round`). -/
def roundHalfEven (q : ℚ) : ℤ :=
  let f := q - ⌊q⌋
  if f < 1/2 then ⌊q⌋
  else if 1/2 < f then ⌊q⌋ + 1
  else if ⌊q⌋ % 2 = 0 then ⌊q⌋ else ⌊q⌋ + 1

/-- Python `round(x, 1)`. -/
def round1 (q : ℚ) : ℚ :=
  (roundHalfEven (10 * q) : ℚ) / 10

/-- `BrandTier` enum. -/
inductive BrandTier where
  | OEM
  | PREMIUM
  | OE_EQUIVALENT
  | STANDARD
  | ECONOMY
  | UNKNOWN
  deriving Repr, DecidableEq

/-- The tier's enum value. -/
def BrandTier.value : BrandTier → ℕ
  | .OEM => 10
  | .PREMIUM => 9
  | .OE_EQUIVALENT => 8
  | .STANDARD => 6
  | .ECONOMY => 4
  | .UNKNOWN => 5

/-- `VendorOffer` dataclass. -/
structure VendorOffer where
  vendor_id : String
  vendor_name : String
  brand : String
  brand_tier : BrandTier
  part_number : String
  price : ℚ
  stock_status : String
  stock_quantity : ℕ
  warehouse_location : String
  warehouse_distance_miles : ℚ
  delivery_option : String
  warranty : String
  deriving Repr, DecidableEq

/-- `ScoredOffer` dataclass. -/
structure ScoredOffer where
  offer : VendorOffer
  brand_score : ℚ
  price_score : ℚ
  distance_score : ℚ
  composite_score : ℚ
  selection : String
  deriving Repr, DecidableEq

/-- `VendorWeights` dataclass (non-negative integers, default 40/35/25). -/
structure VendorWeights where
  brand : ℕ := 40
  price : ℕ := 35
  distance : ℕ := 25
  deriving Repr, DecidableEq

/-- `self.max_distance_miles = 50`. -/
def max_distance_miles : ℚ := 50

/-- `brand_score = float(offer.brand_tier.value)`. -/
def brandScoreOf (offer : VendorOffer) : ℚ :=
  (offer.brand_tier.value : ℚ)

/-- `prices = [float(o.price) for o in all_offers if o.price > 0]`. -/
def pricesOf (all_offers : List VendorOffer) : List ℚ :=
  (all_offers.filter (fun o => 0 < o.price)).map (·.price)

/-- The price sub-score before rounding: min–max inverse normalization
over the positive prices; 10 when all positive prices coincide; 5 when
there is no positive price. -/
def rawPriceScore (offer : VendorOffer) (all_offers : List VendorOffer) : ℚ :=
  match pricesOf all_offers with
  | [] => 5
  | p :: ps =>
    let max_price := ps.foldl max p
    let min_price := ps.foldl min p
    if max_price ≠ min_price then
      10 - ((offer.price - min_price) / (max_price - min_price)) * 10
    else 10

/-- The distance sub-score before rounding:
`max(0, 10 - (distance / self.max_distance_miles) * 10)`. -/
def rawDistanceScore (offer : VendorOffer) : ℚ :=
  max 0 (10 - (offer.warehouse_distance_miles / max_distance_miles) * 10)

/-- The composite score before rounding: sub-scores weighted by the
normalized percentages, divided by 10. -/
def rawComposite (offer : VendorOffer) (all_offers : List VendorOffer)
    (weights : VendorWeights) : ℚ :=
  let total_weight : ℚ := (weights.brand : ℚ) + weights.price + weights.distance
  let normalized_brand := ((weights.brand : ℚ) / total_weight) * 100
  let normalized_price := ((weights.price : ℚ) / total_weight) * 100
  let normalized_distance := ((weights.distance : ℚ) / total_weight) * 100
  (brandScoreOf offer * normalized_brand
    + rawPriceScore offer all_offers * normalized_price
    + rawDistanceScore offer * normalized_distance) / 10

/-- The `ScoredOffer` built by `calculate_vendor_score` once the weight
normalization is known to be defined: each stored score is the raw score
rounded to one decimal place, and `selection` starts empty. -/
def scoreOne (offer : VendorOffer) (all_offers : List VendorOffer)
    (weights : VendorWeights) : ScoredOffer :=
  { offer := offer
    brand_score := round1 (brandScoreOf offer)
    price_score := round1 (rawPriceScore offer all_offers)
    distance_score := round1 (rawDistanceScore offer)
    composite_score := round1 (rawComposite offer all_offers weights)
    selection := "" }

/-- `VendorService.calculate_vendor_score`.  A zero weight sum makes the
weight normalization divide by zero (`ZeroDivisionError` in Python),
modelled as `none`. -/
def calculate_vendor_score (offer : VendorOffer)
    (all_offers : List VendorOffer) (weights : VendorWeights) :
    Option ScoredOffer :=
  if weights.brand + weights.price + weights.distance = 0 then none
  else some (scoreOne offer all_offers weights)

/-- The scoring list comprehension
`[self.calculate_vendor_score(offer, offers, weights) for offer in offers]`,
propagating a scoring failure. -/
def scoreAll (offers : List VendorOffer) (all_offers : List VendorOffer)
    (weights : VendorWeights) : Option (List ScoredOffer) :=
  match offers with
  | [] => some []
  | o :: rest => do
    let so ← calculate_vendor_score o all_offers weights
    let tail ← scoreAll rest all_offers weights
    return so :: tail

/-- Mark `scored_offers[0].selection = "Primary"` and, when present,
`scored_offers[1].selection = "Backup"`. -/
def markSelections : List ScoredOffer → List ScoredOffer
  | [] => []
  | [a] => [{ a with selection := "Primary" }]
  | a :: b :: rest =>
      { a with selection := "Primary" } :: { b with selection := "Backup" } :: rest

/-- The comparison realised by
`sort(key=lambda x: x.composite_score, reverse=True)`: a stable
descending sort by composite score. -/
def scoreGE (a b : ScoredOffer) : Bool :=
  decide (b.composite_score ≤ a.composite_score)

/-- `VendorService.score_and_rank_offers`: empty input short-circuits to
`[]`; otherwise score every offer against the whole list, stable-sort by
composite score descending, and mark Primary/Backup. -/
def score_and_rank_offers (offers : List VendorOffer)
    (weights : VendorWeights) : Option (List ScoredOffer) :=
  if offers.isEmpty then some []
  else do
    let scored ← scoreAll offers offers weights
    return markSelections (scored.mergeSort scoreGE)

/-- A single-offer list used to exercise the single-offer scoring facts:
positive price, zero distance, OEM brand tier, so all three raw
sub-scores are 10. -/
def offerSingle : VendorOffer :=
  { vendor_id := "worldpac_001"
    vendor_name := "Worldpac"
    brand := "OEM Honda"
    brand_tier := .OEM
    part_number := "PN-100"
    price := 100
    stock_status := "In Stock"
    stock_quantity := 5
    warehouse_location := "Oakland, CA"
    warehouse_distance_miles := 0
    delivery_option := "Same Day Pickup"
    warranty := "1 Year" }

/-- A single offer at 50 miles: distance sub-score 0 while brand and
price sub-scores are 10. -/
def offerDist50 : VendorOffer :=
  { vendor_id := "ssf_001"
    vendor_name := "SSF"
    brand := "Genuine Honda"
    brand_tier := .OEM
    part_number := "PN-200"
    price := 100
    stock_status := "Available"
    stock_quantity := 3
    warehouse_location := "San Jose, CA"
    warehouse_distance_miles := 50
    delivery_option := "Next Day Delivery"
    warranty := "2 Year" }

/-- `offerDist50` with price 0: its single-offer price score is 5. -/
def offerPriceZero : VendorOffer :=
  { offerDist50 with price := 0 }

/-- Offers exercising the zero-price scoring hole: the scored offer has
price 0 while the other offers in the list have distinct positive
prices. -/
def offerFifty : VendorOffer :=
  { offerDist50 with
    vendor_id := "worldpac_002"
    brand := "Bosch"
    brand_tier := .PREMIUM
    price := 50
    warehouse_distance_miles := 10 }

def offerHundred : VendorOffer :=
  { offerDist50 with
    vendor_id := "ssf_002"
    brand := "Generic"
    brand_tier := .ECONOMY
    price := 100
    warehouse_distance_miles := 20 }

def offerZeroPrice : VendorOffer :=
  { offerDist50 with
    vendor_id := "worldpac_003"
    price := 0
    warehouse_distance_miles := 0 }

/-- Forget the Primary/Backup marking, keeping offer and scores. -/
def stripSel (so : ScoredOffer) : ScoredOffer :=
  { so with selection := "" }

/-! ### Part Condition Detector (`part_condition_service.py`) -/

/-- Python `str.upper()` (per-character uppercasing). -/
def pyUpper (s : String) : String :=
  ⟨s.data.map Char.toUpper⟩

/-- `PartCondition` enum. -/
inductive PartCondition where
  | NEW
  | REMANUFACTURED
  | UNKNOWN
  deriving Repr, DecidableEq

/-- `ConditionConfidence` enum. -/
inductive ConditionConfidence where
  | HIGH
  | MEDIUM
  | LOW
  deriving Repr, DecidableEq

/-- `ConditionResult` dataclass. -/
structure ConditionResult where
  condition : PartCondition
  confidence : ConditionConfidence
  matched_keyword : Option String
  display_tag : Option String
  requires_manual_selection : Bool
  flag_color : Option String
  deriving Repr, DecidableEq

/-- `REMAN_KEYWORDS` (checked first: higher priority). -/
def REMAN_KEYWORDS : List String :=
  ["REMAN", "RMN", "REBUILT", "REFURB", "REFURBISHED",
   "CORE CHARGE", "EXCHANGE", "RECO", "RECONDITIONED",
   "REMANUFACTURED", "RMFD", "RFB"]

/-- `NEW_KEYWORDS` (explicit NEW-quality phrases). -/
def NEW_KEYWORDS : List String :=
  ["100% NEW", "BRAND NEW", "NEW OEM", "NEW AFTERMARKET",
   "FACTORY NEW", "GENUINE NEW"]

/-- `PartConditionService.detect_part_condition`: empty text → UNKNOWN;
otherwise the first matching REMAN keyword wins, then the first explicit
NEW phrase, then a bare `"NEW"` substring, else UNKNOWN with the
manual-selection flag. -/
def detect_part_condition (description : String) : ConditionResult :=
  if description = "" then
    { condition := .UNKNOWN
      confidence := .LOW
      matched_keyword := none
      display_tag := none
      requires_manual_selection := true
      flag_color := some "YELLOW" }
  else
    let desc_upper := pyUpper description
    match REMAN_KEYWORDS.find? (fun kw => pyIn kw desc_upper) with
    | some kw =>
      { condition := .REMANUFACTURED
        confidence := .HIGH
        matched_keyword := some kw
        display_tag := some "[REMANUFACTURED]"
        requires_manual_selection := false
        flag_color := none }
    | none =>
      match NEW_KEYWORDS.find? (fun kw => pyIn kw desc_upper) with
      | some kw =>
        { condition := .NEW
          confidence := .HIGH
          matched_keyword := some kw
          display_tag := some "[NEW]"
          requires_manual_selection := false
          flag_color := none }
      | none =>
        if pyIn "NEW" desc_upper then
          { condition := .NEW
            confidence := .MEDIUM
            matched_keyword := some "NEW"
            display_tag := some "[NEW]"
            requires_manual_selection := false
            flag_color := none }
        else
          { condition := .UNKNOWN
            confidence := .LOW
            matched_keyword := none
            display_tag := none
            requires_manual_selection := true
            flag_color := some "YELLOW" }

/-! ### Add-On Detector (`addon_service.py`) -/

/-- Python `str.lower()`, as a character list. -/
def lowerChars (s : String) : List Char :=
  s.data.map Char.toLower

/-- `str.replace('_', ' ')`. -/
def underscoreToSpace (s : String) : String :=
  ⟨s.data.map (fun c => if c = '_' then ' ' else c)⟩

/-- `str.title()`: uppercase the first letter of each word, lowercase the
rest; a word boundary is any non-alphabetic character. -/
def pyTitleAux : List Char → Bool → List Char
  | [], _ => []
  | c :: cs, prevAlpha =>
    (if prevAlpha then c.toLower else c.toUpper) :: pyTitleAux cs c.isAlpha

def pyTitle (s : String) : String :=
  ⟨pyTitleAux s.data false⟩

/-- One consumable part entry of an `ADD_ON_RULES` rule. -/
structure AddOnSpec where
  part_name : String
  part_number : String
  category : String
  price : ℚ
  reason : String
  deriving Repr, DecidableEq

/-- One named rule of `ADD_ON_RULES`. -/
structure AddOnRule where
  name : String
  keywords : List String
  add_items : List AddOnSpec
  deriving Repr, DecidableEq

/-- The static `ADD_ON_RULES` table, in insertion order. -/
def ADD_ON_RULES : List AddOnRule :=
  [⟨"plenum_removal",
    ["plenum removal", "intake manifold removal", "remove plenum",
     "remove intake manifold"],
    [⟨"Intake Plenum Gasket", "PLN-GSK-001", "gaskets", 2499/100,
      "Plenum must be resealed after removal"⟩,
     ⟨"Intake Manifold Gasket Set", "INT-GSK-SET", "gaskets", 3499/100,
      "Required for manifold reassembly"⟩]⟩,
   ⟨"valve_cover",
    ["valve cover", "remove valve cover", "valve cover gasket"],
    [⟨"Valve Cover Gasket", "VC-GSK-001", "gaskets", 2899/100,
      "Always replace when removing valve cover"⟩,
     ⟨"Spark Plug Tube Seals", "SP-SEAL-SET", "seals", 1899/100,
      "Prevents oil leaks into spark plug wells"⟩]⟩,
   ⟨"brake_service",
    ["brake pad", "brake service", "brake rotor", "brake caliper",
     "replace pads"],
    [⟨"Brake Cleaner", "BC-CLN-001", "consumables", 899/100,
      "Required for proper brake pad installation"⟩,
     ⟨"Anti-Seize Compound", "AS-CMP-001", "consumables", 1299/100,
      "Prevents caliper slide pin seizure"⟩,
     ⟨"Brake Hardware Kit", "BRK-HW-KIT", "hardware", 1599/100,
      "Includes clips and springs for proper operation"⟩]⟩,
   ⟨"coolant_system",
    ["coolant flush", "radiator flush", "thermostat", "water pump",
     "coolant leak"],
    [⟨"Coolant/Antifreeze (1 gal)", "CLT-AF-001", "fluids", 2499/100,
      "System refill after service"⟩,
     ⟨"Radiator Cap", "RAD-CAP-001", "parts", 1299/100,
      "Inspect/replace when servicing cooling system"⟩,
     ⟨"Thermostat Gasket", "THM-GSK-001", "gaskets", 899/100,
      "Required when replacing thermostat"⟩]⟩,
   ⟨"oil_change",
    ["oil change", "engine oil", "oil filter"],
    [⟨"Drain Plug Gasket", "DRN-GSK-001", "gaskets", 299/100,
      "Replace every oil change to prevent leaks"⟩]⟩,
   ⟨"timing_belt",
    ["timing belt", "timing chain", "timing tensioner"],
    [⟨"Timing Belt Tensioner", "TM-TNS-001", "parts", 8999/100,
      "Always replace with timing belt"⟩,
     ⟨"Timing Belt Idler Pulley", "TM-IDL-001", "parts", 3499/100,
      "Wear item - replace with belt"⟩,
     ⟨"Water Pump", "WP-001", "parts", 7999/100,
      "Recommended replacement - already accessible"⟩]⟩,
   ⟨"transmission_service",
    ["transmission fluid", "trans flush", "transmission service", "atf"],
    [⟨"Transmission Filter Kit", "TRS-FLT-KIT", "filters", 4599/100,
      "Replace filter when servicing transmission"⟩,
     ⟨"Transmission Pan Gasket", "TRS-PAN-GSK", "gaskets", 1899/100,
      "Replace when removing pan"⟩]⟩,
   ⟨"exhaust_work",
    ["exhaust", "catalytic converter", "muffler", "exhaust manifold"],
    [⟨"Exhaust Gasket", "EXH-GSK-001", "gaskets", 1499/100,
      "Required for exhaust connections"⟩,
     ⟨"Exhaust Bolts/Studs Kit", "EXH-HW-KIT", "hardware", 2299/100,
      "Often corroded and break during removal"⟩]⟩,
   ⟨"suspension",
    ["strut", "shock", "control arm", "ball joint", "tie rod"],
    [⟨"Alignment Service", "SVC-ALIGN", "labor", 8999/100,
      "Required after suspension work"⟩]⟩,
   ⟨"ac_service",
    ["ac", "a/c", "air conditioning", "compressor", "condenser",
     "evaporator"],
    [⟨"R-134a Refrigerant", "AC-R134A", "fluids", 4599/100,
      "System recharge after repair"⟩,
     ⟨"AC O-Ring Kit", "AC-ORING-KIT", "seals", 1899/100,
      "Replace seals to prevent leaks"⟩,
     ⟨"PAG Oil", "AC-PAG-OIL", "fluids", 2299/100,
      "Required for compressor lubrication"⟩]⟩]

/-- `AddOnItem` dataclass (quantity is always created as 1). -/
structure AddOnItem where
  part_name : String
  part_number : String
  category : String
  price : ℚ
  quantity : ℕ
  reason : String
  reason_badge : String
  deriving Repr, DecidableEq

/-- Build the `AddOnItem` for a rule's table entry, including the
`"{rule_name.replace('_', ' ').title()} → {part_name}"` badge. -/
def mkAddOn (rule_name : String) (it : AddOnSpec) : AddOnItem :=
  { part_name := it.part_name
    part_number := it.part_number
    category := it.category
    price := it.price
    quantity := 1
    reason := it.reason
    reason_badge := pyTitle (underscoreToSpace rule_name) ++ " → "
      ++ it.part_name }

/-- Append a rule's items to the detected list, skipping any item whose
part number already occurs (first occurrence wins). -/
def addItemsDedup (acc : List AddOnItem) (rule_name : String)
    (items : List AddOnSpec) : List AddOnItem :=
  items.foldl
    (fun acc it =>
      if acc.any (fun a => a.part_number == it.part_number) then acc
      else acc ++ [mkAddOn rule_name it])
    acc

/-- The inner `for keyword in rule_data["keywords"]` loop with its
`break`: the first matching keyword records the rule once and stops. -/
def ruleKeywordLoop : List String → AddOnRule → List Char →
    List String × List AddOnItem → List String × List AddOnItem
  | [], _, _, st => st
  | kw :: rest, rule, text, st =>
    if containsSub (lowerChars kw) text then
      (st.1 ++ [rule.name], addItemsDedup st.2 rule.name rule.add_items)
    else ruleKeywordLoop rest rule text st

/-- The result dictionary of `detect_addons`.  `matched_rules` passes
through `list(set(...))`, modelled as order-preserving deduplication. -/
structure AddOnResult where
  success : Bool
  matched_rules : List String
  addon_count : ℕ
  addons : List AddOnItem
  total_price : ℚ
  deriving Repr, DecidableEq

/-- `AddOnService.detect_addons`: search text is the lowercased request,
plus a space and the lowercased space-joined procedures when any exist;
each rule fires on its first matching keyword. -/
def detect_addons (service_request : String)
    (labor_procedures : List String) : AddOnResult :=
  let search_text := lowerChars service_request ++
    (if labor_procedures.isEmpty then []
     else ' ' :: lowerChars (String.intercalate " " labor_procedures))
  let st := ADD_ON_RULES.foldl
    (fun st rule => ruleKeywordLoop rule.keywords rule search_text st)
    ([], [])
  { success := true
    matched_rules := st.1.eraseDups
    addon_count := st.2.length
    addons := st.2
    total_price := st.2.foldl (fun t it => t + it.price * it.quantity) 0 }

/-! ### Theorems -/

theorem hayStartsWith_append (pat l r : List Char)
    (h : hayStartsWith pat l = true) : hayStartsWith pat (l ++ r) = true := by
  induction pat generalizing l with
  | nil => rfl
  | cons p ps ih =>
    cases l with
    | nil => simp [hayStartsWith] at h
    | cons c cs =>
      simp only [hayStartsWith, Bool.and_eq_true] at h ⊢
      exact ⟨h.1, ih cs h.2⟩

theorem containsSub_nil_pat (text : List Char) :
    containsSub [] text = true := by
  cases text <;> simp [containsSub, hayStartsWith]

/-- An occurrence inside a prefix survives appending a suffix. -/
theorem containsSub_append_left (pat l r : List Char)
    (h : containsSub pat l = true) : containsSub pat (l ++ r) = true := by
  induction l with
  | nil =>
    simp only [containsSub] at h
    cases pat with
    | nil => exact containsSub_nil_pat r
    | cons p ps => simp [hayStartsWith] at h
  | cons c cs ih =>
    simp only [containsSub, Bool.or_eq_true] at h
    rcases h with h | h
    · simp only [List.cons_append, containsSub, Bool.or_eq_true]
      exact Or.inl (hayStartsWith_append pat (c :: cs) r h)
    · simp only [List.cons_append, containsSub, Bool.or_eq_true]
      exact Or.inr (ih h)

/-- `pyIn` survives appending a suffix to the text. -/
theorem pyIn_append_left (pat l r : String)
    (h : pyIn pat l = true) : pyIn pat (l ++ r) = true := by
  simpa [pyIn, String.data_append] using
    containsSub_append_left pat.data l.data r.data h

/-- C3: For every list of labor items, every list of part items, every job
type, tax rate and include-cleaning-kit choice, the breakdown returned by
`calculate_estimate` satisfies `subtotal = laborTotal + partsTotal` and
`total = subtotal + taxAmount + cleaningKitPrice` exactly, where the
cleaning-kit price is 0 and the kit field is omitted when the cleaning
kit is not included. -/
theorem calculate_estimate_breakdown_identities
    (labor_items : List LaborItem) (parts_items : List PartItem)
    (job_type : String) (tax_rate : ℚ) (include_cleaning_kit : Bool) :
    let b := calculate_estimate labor_items parts_items job_type tax_rate
      include_cleaning_kit
    b.subtotal = b.laborTotal + b.partsTotal ∧
    b.total = b.subtotal + b.taxAmount + kitPrice b.cleaningKit ∧
    (include_cleaning_kit = false →
      b.cleaningKit = none ∧ kitPrice b.cleaningKit = 0) := by
  refine ⟨rfl, ?_, ?_⟩
  · cases include_cleaning_kit <;> rfl
  · intro h
    subst h
    exact ⟨rfl, rfl⟩

theorem foldl_sub_eq_sub_sum {α : Type} (f : α → ℤ) (l : List α)
    (init : ℤ) : l.foldl (fun sc x => sc - f x) init = init - (l.map f).sum := by
  induction l generalizing init with
  | nil => simp
  | cons a t ih =>
    simp only [List.foldl_cons, List.map_cons, List.sum_cons, ih]
    ring

theorem step_deduction_sum (steps : List (String × Bool)) :
    (steps.map stepDeduction).sum =
      30 * (steps.countP isFailedCritical : ℤ) +
      10 * (steps.countP isFailedNonCritical : ℤ) := by
  induction steps with
  | nil => simp
  | cons st t ih =>
    obtain ⟨name, ok⟩ := st
    simp only [List.map_cons, List.sum_cons, List.countP_cons, ih]
    by_cases hn : (name == "vehicle_decode" || name == "labor_lookup") = true
    · cases ok with
      | true => simp [stepDeduction, isFailedCritical, isFailedNonCritical, hn]
      | false =>
        simp [stepDeduction, isFailedCritical, isFailedNonCritical, hn]
        ring
    · cases ok with
      | true => simp [stepDeduction, isFailedCritical, isFailedNonCritical, hn]
      | false =>
        simp [stepDeduction, isFailedCritical, isFailedNonCritical, hn]
        ring

theorem flag_deduction_sum (flags : List String) :
    (flags.map flagDeduction).sum =
      20 * (flags.countP (· == "RED") : ℤ) +
      10 * (flags.countP (· == "WARNING") : ℤ) +
      5 * (flags.countP (· == "YELLOW") : ℤ) := by
  induction flags with
  | nil => simp
  | cons f t ih =>
    simp only [List.map_cons, List.sum_cons, List.countP_cons, ih]
    by_cases h1 : (f == "RED") = true
    · have h1' : f = "RED" := by simpa using h1
      subst h1'
      simp [flagDeduction]
      ring
    · by_cases h2 : (f == "WARNING") = true
      · have h2' : f = "WARNING" := by simpa using h2
        subst h2'
        simp [flagDeduction]
        ring
      · by_cases h3 : (f == "YELLOW") = true
        · have h3' : f = "YELLOW" := by simpa using h3
          subst h3'
          simp [flagDeduction]
          ring
        · simp [flagDeduction, h1, h2, h3]

theorem confidence_score_raw (steps : List (String × Bool))
    (flags : List String) :
    (calculate_confidence_score steps flags).score =
      max 0 (100 - (steps.map stepDeduction).sum
        - (flags.map flagDeduction).sum) := by
  unfold calculate_confidence_score
  simp only [foldl_sub_eq_sub_sum]

theorem confidence_threshold_raw (steps : List (String × Bool))
    (flags : List String) :
    (calculate_confidence_score steps flags).threshold =
      (if 90 ≤ (calculate_confidence_score steps flags).score then "HIGH"
       else if 70 ≤ (calculate_confidence_score steps flags).score then
         "MEDIUM" else "LOW") := rfl

theorem confidence_action_raw (steps : List (String × Bool))
    (flags : List String) :
    (calculate_confidence_score steps flags).action =
      (if 90 ≤ (calculate_confidence_score steps flags).score then
        "Auto-proceed"
       else if 70 ≤ (calculate_confidence_score steps flags).score then
         "Quick advisor review recommended"
       else "Human advisor required") := rfl

/-- C2: the confidence score equals 100 minus 30 per failed critical step
(`vehicle_decode`, `labor_lookup`), minus 10 per failed non-critical step,
minus 20 per RED flag, 10 per WARNING flag, 5 per YELLOW flag, clamped to
[0, 100]; the threshold is HIGH with action "Auto-proceed" when the score
is ≥ 90, MEDIUM with "Quick advisor review recommended" when ≥ 70, else
LOW with "Human advisor required". -/
theorem confidence_score_formula (steps : List (String × Bool))
    (flags : List String) :
    (calculate_confidence_score steps flags).score = max 0 (min 100
      (100 - 30 * (steps.countP isFailedCritical : ℤ)
           - 10 * (steps.countP isFailedNonCritical : ℤ)
           - 20 * (flags.countP (· == "RED") : ℤ)
           - 10 * (flags.countP (· == "WARNING") : ℤ)
           - 5 * (flags.countP (· == "YELLOW") : ℤ))) ∧
    0 ≤ (calculate_confidence_score steps flags).score ∧
    (calculate_confidence_score steps flags).score ≤ 100 ∧
    (calculate_confidence_score steps flags).threshold =
      (if 90 ≤ (calculate_confidence_score steps flags).score then "HIGH"
       else if 70 ≤ (calculate_confidence_score steps flags).score then
        "MEDIUM" else "LOW") ∧
    (calculate_confidence_score steps flags).action =
      (if 90 ≤ (calculate_confidence_score steps flags).score then
        "Auto-proceed"
       else if 70 ≤ (calculate_confidence_score steps flags).score then
        "Quick advisor review recommended"
       else "Human advisor required") := by
  have hscore : (calculate_confidence_score steps flags).score = max 0 (100
      - 30 * (steps.countP isFailedCritical : ℤ)
      - 10 * (steps.countP isFailedNonCritical : ℤ)
      - 20 * (flags.countP (· == "RED") : ℤ)
      - 10 * (flags.countP (· == "WARNING") : ℤ)
      - 5 * (flags.countP (· == "YELLOW") : ℤ)) := by
    rw [confidence_score_raw, step_deduction_sum, flag_deduction_sum]
    ring_nf
  refine ⟨?_, ?_, ?_, ?_, ?_⟩
  · rw [hscore]
    omega
  · rw [hscore]
    omega
  · rw [hscore]
    omega
  · exact confidence_threshold_raw steps flags
  · exact confidence_action_raw steps flags

theorem beq_four_sum_zero_false_iff (a b c d : ℕ) :
    ((a + b + c + d == 0) = false) = ¬(a = 0 ∧ b = 0 ∧ c = 0 ∧ d = 0) := by
  simp only [eq_iff_iff, beq_eq_false_iff_ne, ne_eq]
  omega

theorem isCriticalError_vin_decode (e : String) :
    isCriticalError ("VIN Decode failed: " ++ e) = true := by
  have h : pyIn "VIN" ("VIN Decode failed: " ++ e) = true :=
    pyIn_append_left "VIN" "VIN Decode failed: " e (by decide)
  simp [isCriticalError, h]

theorem isCriticalError_labor_failed (e : String) :
    isCriticalError ("Labor lookup failed: " ++ e) = true := by
  have h : pyIn "Labor" ("Labor lookup failed: " ++ e) = true :=
    pyIn_append_left "Labor" "Labor lookup failed: " e (by decide)
  simp [isCriticalError, h]

theorem isCriticalError_labor_no_results :
    isCriticalError "Labor lookup returned no results" = true := by decide

theorem success_filter_shape (inp : PipelineInputs) :
    (generate_estimate inp).success =
      (((vinErrsOf inp.vin_decode ++ lbErrsOf inp.labor_lookup
        ++ psErrsOf inp.parts_search ++ calcErrsOf inp.calculation).filter
          isCriticalError).length == 0) := rfl

theorem filter_vinErrs_len (v : Except String VehicleInfo) :
    ((vinErrsOf v).filter isCriticalError).length =
      (match v with | .ok _ => 0 | .error _ => 1) := by
  cases v with
  | ok a => rfl
  | error e => simp [vinErrsOf, List.filter, isCriticalError_vin_decode e]

theorem filter_lbErrs_len (v : Except String (Option LaborData)) :
    ((lbErrsOf v).filter isCriticalError).length =
      (match v with | .ok (some _) => 0 | .ok none => 1 | .error _ => 1) := by
  cases v with
  | ok a =>
    cases a with
    | none => simp [lbErrsOf, List.filter, isCriticalError_labor_no_results]
    | some _ => rfl
  | error e => simp [lbErrsOf, List.filter, isCriticalError_labor_failed e]

theorem filter_psErrs_len (v : Except String (List PartResult)) :
    ((psErrsOf v).filter isCriticalError).length =
      (match v with
        | .ok _ => 0
        | .error e =>
          if isCriticalError ("Parts search failed: " ++ e) then 1 else 0) := by
  cases v with
  | ok a => rfl
  | error e =>
    simp only [psErrsOf, List.filter]
    cases h : isCriticalError ("Parts search failed: " ++ e) <;> simp [h]

theorem filter_calcErrs_len (v : Except String Unit) :
    ((calcErrsOf v).filter isCriticalError).length =
      (match v with
        | .ok _ => 0
        | .error e =>
          if isCriticalError ("Calculation failed: " ++ e) then 1 else 0) := by
  cases v with
  | ok a => rfl
  | error e =>
    simp only [calcErrsOf, List.filter]
    cases h : isCriticalError ("Calculation failed: " ++ e) <;> simp [h]

/-- C1 (amended): overall success is false iff some recorded error string
contains `"VIN"` or `"Labor"` as a substring.  A VIN-decode failure or a
labor-lookup failure (exception or empty result) always records such a
string; recall, warranty, vendor-compare, part-condition and add-on
failures never record pipeline-level errors; but a parts-search or
calculation failure records an error that flips overall success to false
exactly when its message makes the recorded string contain `"VIN"` or
`"Labor"`. -/
theorem overall_success_characterization (inp : PipelineInputs) :
    (generate_estimate inp).success = false ↔
      ((∃ e, inp.vin_decode = .error e) ∨
       (inp.labor_lookup = .ok none ∨ ∃ e, inp.labor_lookup = .error e) ∨
       (∃ e, inp.parts_search = .error e ∧
         isCriticalError ("Parts search failed: " ++ e) = true) ∨
       (∃ e, inp.calculation = .error e ∧
         isCriticalError ("Calculation failed: " ++ e) = true)) := by
  rw [success_filter_shape]
  simp only [List.filter_append, List.length_append]
  rw [beq_four_sum_zero_false_iff]
  rw [filter_vinErrs_len, filter_lbErrs_len, filter_psErrs_len,
    filter_calcErrs_len]
  constructor
  · intro h
    by_contra hc
    push_neg at hc
    obtain ⟨h1, h2, h3, h4⟩ := hc
    apply h
    refine ⟨?_, ?_, ?_, ?_⟩
    · cases hv : inp.vin_decode with
      | ok a => rfl
      | error e => exact absurd hv (h1 e)
    · cases hl : inp.labor_lookup with
      | ok a =>
        cases a with
        | none => exact absurd hl h2.1
        | some _ => rfl
      | error e => exact absurd hl (h2.2 e)
    · cases hp : inp.parts_search with
      | ok a => rfl
      | error e =>
        simp only []
        have := h3 e hp
        simp only [Bool.not_eq_true] at this
        simp [this]
    · cases hq : inp.calculation with
      | ok a => rfl
      | error e =>
        simp only []
        have := h4 e hq
        simp only [Bool.not_eq_true] at this
        simp [this]
  · intro h hc
    obtain ⟨h1, h2, h3, h4⟩ := hc
    rcases h with ⟨e, he⟩ | h | ⟨e, he, hcrit⟩ | ⟨e, he, hcrit⟩
    · rw [he] at h1
      simp at h1
    · rcases h with he | ⟨e, he⟩
      · rw [he] at h2
        simp at h2
      · rw [he] at h2
        simp at h2
    · rw [he] at h3
      simp [hcrit] at h3
    · rw [he] at h4
      simp [hcrit] at h4

/-- C1 counterexample: in `inputsPartsVinMsg` both critical steps
(`vehicle_decode`, `labor_lookup`) succeed and only the non-critical
parts-search step fails, yet overall success is false — a non-critical
step failure can flip overall success, and success is not equivalent to
"an error was recorded for a critical step". -/
theorem noncritical_failure_flips_success :
    (generate_estimate inputsPartsVinMsg).steps =
      [("vehicle_decode", true), ("recall_check", true),
       ("warranty_check", true), ("labor_lookup", true),
       ("parts_search", false), ("vendor_compare", true),
       ("part_conditions", true), ("addon_detection", true),
       ("calculation", true)] ∧
    (generate_estimate inputsPartsVinMsg).errors =
      ["Parts search failed: VIN database timeout"] ∧
    (generate_estimate inputsPartsVinMsg).success = false := by
  refine ⟨rfl, rfl, ?_⟩
  decide

/-- C9 counterexample: a Calculation-step failure is recorded in the
pipeline-level errors list, yet overall success stays true — the
calculation error is not treated as fatal. -/
theorem calculation_failure_not_fatal :
    (generate_estimate inputsCalcFails).errors =
      ["Calculation failed: unsupported operand type"] ∧
    (generate_estimate inputsCalcFails).steps.getLast? =
      some ("calculation", false) ∧
    (generate_estimate inputsCalcFails).success = true := by
  refine ⟨rfl, rfl, ?_⟩
  decide

/-- C9 (amended): if the Calculation step fails with message `m`, the
error `"Calculation failed: " ++ m` is surfaced in the pipeline-level
errors list, but it is not fatal: unless that recorded string contains
`"VIN"` or `"Labor"`, overall success is exactly what it would have been
had the calculation succeeded. -/
theorem calculation_failure_surfaced_not_fatal (inp : PipelineInputs)
    (m : String) (h : inp.calculation = .error m) :
    ("Calculation failed: " ++ m) ∈ (generate_estimate inp).errors ∧
    (isCriticalError ("Calculation failed: " ++ m) = false →
      (generate_estimate inp).success =
        (generate_estimate { inp with calculation := .ok () }).success) := by
  constructor
  · show _ ∈ vinErrsOf inp.vin_decode ++ lbErrsOf inp.labor_lookup
      ++ psErrsOf inp.parts_search ++ calcErrsOf inp.calculation
    have : ("Calculation failed: " ++ m) ∈ calcErrsOf inp.calculation := by
      rw [h]
      simp [calcErrsOf]
    simp [this]
  · intro hnc
    rw [success_filter_shape, success_filter_shape]
    simp only [List.filter_append, List.length_append]
    rw [filter_calcErrs_len, filter_calcErrs_len, h]
    simp [hnc]

/-- Witness for the amended C9 at `inputsCalcFails`. -/
theorem calculation_failure_surfaced_not_fatal_witness :
    ("Calculation failed: unsupported operand type") ∈
      (generate_estimate inputsCalcFails).errors ∧
    (generate_estimate inputsCalcFails).success =
      (generate_estimate
        { inputsCalcFails with calculation := .ok () }).success :=
  ⟨(calculation_failure_surfaced_not_fatal inputsCalcFails
      "unsupported operand type" rfl).1,
   (calculation_failure_surfaced_not_fatal inputsCalcFails
      "unsupported operand type" rfl).2 (by decide)⟩

theorem round1_ten : round1 10 = 10 := by
  have h : ⌊(100:ℚ)⌋ = 100 := by norm_num
  norm_num [round1, roundHalfEven, h]

theorem round1_five : round1 5 = 5 := by
  have h : ⌊(50:ℚ)⌋ = 50 := by norm_num
  norm_num [round1, roundHalfEven, h]

/-- With the weight sum nonzero the normalized percentages add up to 100,
so equal sub-scores make the raw composite `10 × s` independently of the
weights. -/
theorem rawComposite_of_equal_subscores (offer : VendorOffer)
    (all_offers : List VendorOffer) (weights : VendorWeights)
    (hW : weights.brand + weights.price + weights.distance ≠ 0) (s : ℚ)
    (h1 : brandScoreOf offer = s)
    (h2 : rawPriceScore offer all_offers = s)
    (h3 : rawDistanceScore offer = s) :
    rawComposite offer all_offers weights = 10 * s := by
  have hcast : ((weights.brand : ℚ) + weights.price + weights.distance) ≠ 0 := by
    have : ((weights.brand + weights.price + weights.distance : ℕ) : ℚ) ≠ 0 :=
      Nat.cast_ne_zero.mpr hW
    push_cast at this
    exact this
  unfold rawComposite
  rw [h1, h2, h3]
  field_simp
  ring

/-- C6 (amended): with exactly one offer, the price sub-score is 10 when
the offer's price is positive (and 5 when the price is 0, since the
positive-price list is then empty), the stored distance score is
`round(max(0, 10 - dist/50*10), 1)`, and the composite score is invariant
across positive weight triples whenever the three unrounded sub-scores
coincide (it is not weight-invariant in general). -/
theorem single_offer_scoring (offer : VendorOffer) (w : VendorWeights)
    (hb : 0 < w.brand) (hp : 0 < w.price) (hd : 0 < w.distance) :
    ∃ so, calculate_vendor_score offer [offer] w = some so ∧
      (0 < offer.price → so.price_score = 10) ∧
      (offer.price = 0 → so.price_score = 5) ∧
      so.distance_score =
        round1 (max 0 (10 - offer.warehouse_distance_miles / 50 * 10)) ∧
      (∀ w' : VendorWeights, 0 < w'.brand → 0 < w'.price → 0 < w'.distance →
        brandScoreOf offer = rawPriceScore offer [offer] →
        rawDistanceScore offer = rawPriceScore offer [offer] →
        ∃ so', calculate_vendor_score offer [offer] w' = some so' ∧
          so'.composite_score = so.composite_score) := by
  have hW : w.brand + w.price + w.distance ≠ 0 := by omega
  refine ⟨scoreOne offer [offer] w, ?_, ?_, ?_, ?_, ?_⟩
  · unfold calculate_vendor_score
    rw [if_neg hW]
  · intro hpos
    have hm : pricesOf [offer] = [offer.price] := by
      simp [pricesOf, List.filter, hpos]
    have hps : rawPriceScore offer [offer] = 10 := by
      simp [rawPriceScore, hm]
    show round1 (rawPriceScore offer [offer]) = 10
    rw [hps]
    exact round1_ten
  · intro hzero
    have hm : pricesOf [offer] = [] := by
      simp [pricesOf, List.filter, hzero]
    have hps : rawPriceScore offer [offer] = 5 := by
      simp [rawPriceScore, hm]
    show round1 (rawPriceScore offer [offer]) = 5
    rw [hps]
    exact round1_five
  · show round1 (rawDistanceScore offer) = _
    simp [rawDistanceScore, max_distance_miles]
  · intro w' hb' hp' hd' h1 h2
    have hW' : w'.brand + w'.price + w'.distance ≠ 0 := by omega
    refine ⟨scoreOne offer [offer] w', ?_, ?_⟩
    · unfold calculate_vendor_score
      rw [if_neg hW']
    · show round1 (rawComposite offer [offer] w')
        = round1 (rawComposite offer [offer] w)
      rw [rawComposite_of_equal_subscores offer [offer] w' hW'
          (rawPriceScore offer [offer]) h1 rfl h2,
        rawComposite_of_equal_subscores offer [offer] w hW
          (rawPriceScore offer [offer]) h1 rfl h2]

/-- Witness for the amended C6 at `offerSingle` with weights 1/2/3. -/
theorem single_offer_scoring_witness :
    ∃ so, calculate_vendor_score offerSingle [offerSingle] ⟨1, 2, 3⟩ = some so ∧
      so.price_score = 10 ∧ so.distance_score = 10 := by
  obtain ⟨so, hso, hpos, hzero, hdist, hinv⟩ :=
    single_offer_scoring offerSingle ⟨1, 2, 3⟩ (by norm_num) (by norm_num)
      (by norm_num)
  refine ⟨so, hso, hpos (by norm_num [offerSingle]), ?_⟩
  rw [hdist]
  have h : max (0:ℚ) (10 - (offerSingle.warehouse_distance_miles / 50) * 10)
      = 10 := by
    norm_num [offerSingle]
  norm_num [offerSingle]
  exact round1_ten

theorem round1_intCast (n : ℤ) : round1 ((n : ℚ)) = (n : ℚ) := by
  have h : (10 : ℚ) * (n : ℚ) = ((10 * n : ℤ) : ℚ) := by push_cast; ring
  unfold round1 roundHalfEven
  rw [h, Int.floor_intCast]
  norm_num

theorem rawPriceScore_offerDist50 :
    rawPriceScore offerDist50 [offerDist50] = 10 := by
  have hm : pricesOf [offerDist50] = [100] := by
    norm_num [pricesOf, List.filter, offerDist50]
  simp [rawPriceScore, hm]

/-- C6 counterexample: for the single offer `offerDist50` (brand score 10,
price score 10, distance score 0) the composite score under the all-ones
weights is 66.7 but under weights 98/1/1 it is 99 — the composite is not
invariant across positive weight triples; and for a single offer with
price 0 the price score is 5, not 10. -/
theorem composite_not_weight_invariant :
    (calculate_vendor_score offerDist50 [offerDist50] ⟨1, 1, 1⟩).map
      (·.composite_score) = some (667/10) ∧
    (calculate_vendor_score offerDist50 [offerDist50] ⟨98, 1, 1⟩).map
      (·.composite_score) = some 99 ∧
    (667/10 : ℚ) ≠ 99 ∧
    (calculate_vendor_score offerPriceZero [offerPriceZero] ⟨1, 1, 1⟩).map
      (·.price_score) = some 5 := by
  have hbrand : brandScoreOf offerDist50 = 10 := by
    norm_num [brandScoreOf, offerDist50, BrandTier.value]
  have hdist : rawDistanceScore offerDist50 = 0 := by
    norm_num [rawDistanceScore, offerDist50, max_distance_miles]
  refine ⟨?_, ?_, by norm_num, ?_⟩
  · have hcomp : rawComposite offerDist50 [offerDist50] ⟨1, 1, 1⟩ = 200/3 := by
      norm_num [rawComposite, hbrand, hdist, rawPriceScore_offerDist50]
    have hfl : ⌊(2000/3 : ℚ)⌋ = 666 := by
      rw [Int.floor_eq_iff]
      norm_num
    have hr : round1 (200/3) = 667/10 := by
      norm_num [round1, roundHalfEven, hfl]
    rw [show calculate_vendor_score offerDist50 [offerDist50] ⟨1, 1, 1⟩
        = some (scoreOne offerDist50 [offerDist50] ⟨1, 1, 1⟩) from by
      unfold calculate_vendor_score
      rw [if_neg (by norm_num)]]
    simp only [Option.map_some', scoreOne]
    rw [hcomp, hr]
  · have hcomp : rawComposite offerDist50 [offerDist50] ⟨98, 1, 1⟩ = 99 := by
      norm_num [rawComposite, hbrand, hdist, rawPriceScore_offerDist50]
    have hr : round1 99 = 99 := by
      have := round1_intCast 99
      norm_num at this
      exact this
    rw [show calculate_vendor_score offerDist50 [offerDist50] ⟨98, 1, 1⟩
        = some (scoreOne offerDist50 [offerDist50] ⟨98, 1, 1⟩) from by
      unfold calculate_vendor_score
      rw [if_neg (by norm_num)]]
    simp only [Option.map_some', scoreOne]
    rw [hcomp, hr]
  · have hm : pricesOf [offerPriceZero] = [] := by
      norm_num [pricesOf, List.filter, offerPriceZero, offerDist50]
    have hps : rawPriceScore offerPriceZero [offerPriceZero] = 5 := by
      simp [rawPriceScore, hm]
    rw [show calculate_vendor_score offerPriceZero [offerPriceZero] ⟨1, 1, 1⟩
        = some (scoreOne offerPriceZero [offerPriceZero] ⟨1, 1, 1⟩) from by
      unfold calculate_vendor_score
      rw [if_neg (by norm_num)]]
    simp only [Option.map_some', scoreOne]
    rw [hps, round1_five]

/-- C5 failing run: scoring a zero-priced offer against companions priced
50 and 100 under the default 40/35/25 weights yields a price sub-score of
20 (outside 0–10) and a composite score of 135 (outside 0–100): the
min–max inverse normalization is taken over the `> 0`-filtered price list
but is evaluated at the offer's own price 0. -/
theorem price_score_out_of_range :
    (calculate_vendor_score offerZeroPrice
      [offerZeroPrice, offerFifty, offerHundred] ⟨40, 35, 25⟩).map
      (·.price_score) = some 20 ∧
    (calculate_vendor_score offerZeroPrice
      [offerZeroPrice, offerFifty, offerHundred] ⟨40, 35, 25⟩).map
      (·.composite_score) = some 135 ∧
    ¬ ((20:ℚ) ≤ 10) ∧ ¬ ((135:ℚ) ≤ 100) := by
  have hm : pricesOf [offerZeroPrice, offerFifty, offerHundred]
      = [50, 100] := by
    norm_num [pricesOf, List.filter, offerZeroPrice, offerFifty,
      offerHundred, offerDist50]
  have e1 : List.foldl max (50:ℚ) [100] = 100 := by
    simp only [List.foldl_cons, List.foldl_nil]
    norm_num [max_def]
  have e2 : List.foldl min (50:ℚ) [100] = 50 := by
    simp only [List.foldl_cons, List.foldl_nil]
    norm_num [min_def]
  have hp0 : offerZeroPrice.price = 0 := rfl
  have hps : rawPriceScore offerZeroPrice
      [offerZeroPrice, offerFifty, offerHundred] = 20 := by
    simp only [rawPriceScore, hm, e1, e2]
    rw [if_pos (show (100:ℚ) ≠ 50 by norm_num), hp0]
    norm_num
  have hbrand : brandScoreOf offerZeroPrice = 10 := by
    norm_num [brandScoreOf, offerZeroPrice, offerDist50, BrandTier.value]
  have hdist : rawDistanceScore offerZeroPrice = 10 := by
    norm_num [rawDistanceScore, offerZeroPrice, offerDist50,
      max_distance_miles]
  have hcomp : rawComposite offerZeroPrice
      [offerZeroPrice, offerFifty, offerHundred] ⟨40, 35, 25⟩ = 135 := by
    norm_num [rawComposite, hbrand, hdist, hps]
  have h20 : round1 20 = 20 := by
    have := round1_intCast 20
    norm_num at this
    exact this
  have h135 : round1 135 = 135 := by
    have := round1_intCast 135
    norm_num at this
    exact this
  have hc : calculate_vendor_score offerZeroPrice
      [offerZeroPrice, offerFifty, offerHundred] ⟨40, 35, 25⟩
      = some (scoreOne offerZeroPrice
        [offerZeroPrice, offerFifty, offerHundred] ⟨40, 35, 25⟩) := by
    unfold calculate_vendor_score
    rw [if_neg (by norm_num)]
  refine ⟨?_, ?_, by norm_num, by norm_num⟩
  · rw [hc]
    simp only [Option.map_some', scoreOne]
    rw [hps, h20]
  · rw [hc]
    simp only [Option.map_some', scoreOne]
    rw [hcomp, h135]

theorem length_markSelections (l : List ScoredOffer) :
    (markSelections l).length = l.length := by
  match l with
  | [] => rfl
  | [a] => rfl
  | a :: b :: rest => rfl

/-- With a nonzero weight sum every offer scores, so `scoreAll` is the
plain per-offer map of `scoreOne`. -/
theorem scoreAll_of_ne_zero (all_offers : List VendorOffer)
    (weights : VendorWeights)
    (hW : weights.brand + weights.price + weights.distance ≠ 0) :
    ∀ offers : List VendorOffer,
      scoreAll offers all_offers weights =
        some (offers.map (fun o => scoreOne o all_offers weights)) := by
  intro offers
  induction offers with
  | nil => rfl
  | cons o rest ih =>
    simp only [scoreAll, calculate_vendor_score, if_neg hW, Option.bind_some,
      ih, List.map_cons]
    rfl

/-- With a zero weight sum the very first offer fails to score. -/
theorem scoreAll_of_zero (all_offers : List VendorOffer)
    (weights : VendorWeights)
    (hW : weights.brand + weights.price + weights.distance = 0)
    (o : VendorOffer) (os : List VendorOffer) :
    scoreAll (o :: os) all_offers weights = none := by
  simp only [scoreAll, calculate_vendor_score, if_pos hW]
  rfl

/-- C10: for a non-empty offer list, scoring is total (a `ScoredOffer`
per offer, no failure) whenever the weight sum is positive; when all
three weights are 0 — values `VendorWeights` admits — the weight
normalization divides by zero and the run fails, so a positive weight sum
is a necessary precondition of `score_and_rank_offers`. -/
theorem scoring_requires_positive_weight_sum (offers : List VendorOffer)
    (weights : VendorWeights) (hne : offers ≠ []) :
    (0 < weights.brand + weights.price + weights.distance →
      ∃ l, score_and_rank_offers offers weights = some l ∧
        l.length = offers.length) ∧
    (weights.brand + weights.price + weights.distance = 0 →
      score_and_rank_offers offers weights = none) := by
  constructor
  · intro hpos
    have hW : weights.brand + weights.price + weights.distance ≠ 0 := by omega
    refine ⟨markSelections
      (((offers.map (fun o => scoreOne o offers weights)).mergeSort
        scoreGE)), ?_, ?_⟩
    · unfold score_and_rank_offers
      rw [if_neg (by simp [List.isEmpty_iff, hne])]
      rw [scoreAll_of_ne_zero offers weights hW offers]
      rfl
    · rw [length_markSelections, List.length_mergeSort, List.length_map]
  · intro hzero
    obtain ⟨o, os, rfl⟩ := List.exists_cons_of_ne_nil hne
    unfold score_and_rank_offers
    rw [if_neg (by simp)]
    rw [scoreAll_of_zero (o :: os) weights hzero o os]
    rfl

/-- Witness for C10 at a one-offer list: default-style weights succeed,
all-zero weights fail. -/
theorem scoring_requires_positive_weight_sum_witness :
    (∃ l, score_and_rank_offers [offerSingle] ⟨40, 35, 25⟩ = some l ∧
      l.length = [offerSingle].length) ∧
    score_and_rank_offers [offerSingle] ⟨0, 0, 0⟩ = none :=
  ⟨(scoring_requires_positive_weight_sum [offerSingle] ⟨40, 35, 25⟩
      (by simp)).1 (by norm_num),
   (scoring_requires_positive_weight_sum [offerSingle] ⟨0, 0, 0⟩
      (by simp)).2 rfl⟩

theorem markSelections_map_strip (l : List ScoredOffer) :
    (markSelections l).map stripSel = l.map stripSel := by
  match l with
  | [] => rfl
  | [a] => rfl
  | a :: b :: rest => rfl

theorem scoreGE_trans (a b c : ScoredOffer) (hab : scoreGE a b)
    (hbc : scoreGE b c) : scoreGE a c = true := by
  simp only [scoreGE, decide_eq_true_eq] at *
  exact le_trans hbc hab

theorem scoreGE_total (a b : ScoredOffer) : scoreGE a b || scoreGE b a := by
  simp only [scoreGE]
  rcases le_total a.composite_score b.composite_score with h | h <;> simp [h]

/-- C4: with a usable weight sum, `score_and_rank_offers` returns a list
sorted descending by composite score, a permutation of the per-offer
scores with ties kept in input order (stable sort); on a non-empty input
exactly one returned offer is tagged "Primary" and a "Backup" tag exists
iff a second offer exists (and then exactly one); an empty input yields
an empty result with no tags. -/
theorem score_and_rank_ranking (offers : List VendorOffer)
    (weights : VendorWeights)
    (hW : 0 < weights.brand + weights.price + weights.distance) :
    ∃ result, score_and_rank_offers offers weights = some result ∧
      result.Pairwise
        (fun a b => b.composite_score ≤ a.composite_score) ∧
      List.Perm (result.map stripSel)
        ((offers.map (fun o => scoreOne o offers weights)).map stripSel) ∧
      (∀ a b : ScoredOffer,
        [a, b].Sublist (offers.map (fun o => scoreOne o offers weights)) →
        a.composite_score = b.composite_score →
        ([a, b].map stripSel).Sublist (result.map stripSel)) ∧
      (offers = [] → result = []) ∧
      (offers ≠ [] →
        result.countP (fun so => so.selection == "Primary") = 1 ∧
        result.countP (fun so => so.selection == "Backup") =
          (if 2 ≤ result.length then 1 else 0) ∧
        (2 ≤ result.length ↔ ∃ so ∈ result, so.selection = "Backup")) := by
  by_cases hoff : offers = []
  · subst hoff
    refine ⟨[], rfl, List.Pairwise.nil, by simp, ?_, fun _ => rfl,
      fun h => absurd rfl h⟩
    intro a b hsub heq
    simp at hsub
  · have hWne : weights.brand + weights.price + weights.distance ≠ 0 := by
      omega
    have hall : scoreAll offers offers weights =
        some (offers.map (fun o => scoreOne o offers weights)) :=
      scoreAll_of_ne_zero offers weights hWne offers
    set scored := offers.map (fun o => scoreOne o offers weights) with hscored
    set sorted := scored.mergeSort scoreGE with hsorted
    have hres : score_and_rank_offers offers weights =
        some (markSelections sorted) := by
      unfold score_and_rank_offers
      rw [if_neg (by simp [List.isEmpty_iff, hoff]), hall]
      rfl
    have hmapstrip : (markSelections sorted).map stripSel =
        sorted.map stripSel := markSelections_map_strip sorted
    have hsortpair : sorted.Pairwise (fun a b => scoreGE a b = true) := by
      rw [hsorted]
      exact List.sorted_mergeSort scoreGE_trans scoreGE_total scored
    have hsel : ∀ so ∈ sorted, so.selection = "" := by
      intro so hso
      rw [hsorted] at hso
      have hmem : so ∈ scored := List.mem_mergeSort.mp hso
      rw [hscored] at hmem
      obtain ⟨o, _, rfl⟩ := List.mem_map.mp hmem
      rfl
    refine ⟨markSelections sorted, hres, ?_, ?_, ?_, fun h => absurd h hoff,
      fun _ => ?_⟩
    · have h1 : (sorted.map stripSel).Pairwise
          (fun a b => b.composite_score ≤ a.composite_score) := by
        rw [List.pairwise_map]
        refine hsortpair.imp ?_
        intro a b h
        simpa [scoreGE, decide_eq_true_eq] using h
      rw [← hmapstrip, List.pairwise_map] at h1
      exact h1.imp (fun {a b} h => h)
    · rw [hmapstrip]
      exact (List.mergeSort_perm scored scoreGE).map stripSel
    · intro a b hsub heq
      have hab : scoreGE a b = true := by
        simp only [scoreGE, decide_eq_true_eq]
        exact le_of_eq heq.symm
      have hstep : [a, b].Sublist sorted := by
        rw [hsorted]
        exact List.pair_sublist_mergeSort scoreGE_trans scoreGE_total hab hsub
      rw [hmapstrip]
      exact hstep.map stripSel
    · match hs : sorted with
      | [] =>
        exfalso
        have hlen := @List.length_mergeSort _ scoreGE scored
        rw [← hsorted] at hlen
        rw [hscored, List.length_map] at hlen
        exact hoff (List.length_eq_zero.mp (by simpa using hlen.symm))
      | [a] =>
        have ha : a.selection = "" := hsel a (by simp)
        refine ⟨?_, ?_, ?_⟩
        · simp [markSelections, List.countP_cons]
        · simp [markSelections, List.countP_cons]
        · constructor
          · intro h
            simp [markSelections] at h
          · rintro ⟨so, hso, hb⟩
            simp only [markSelections, List.mem_singleton] at hso
            subst hso
            simp at hb
      | a :: b :: rest =>
        have hrest : ∀ x ∈ rest, x.selection = "" := by
          intro x hx
          exact hsel x (by simp [hx])
        have hrp : rest.countP (fun so => so.selection == "Primary") = 0 := by
          rw [List.countP_eq_zero]
          intro x hx
          rw [hrest x hx]
          decide
        have hrb : rest.countP (fun so => so.selection == "Backup") = 0 := by
          rw [List.countP_eq_zero]
          intro x hx
          rw [hrest x hx]
          decide
        refine ⟨?_, ?_, ?_⟩
        · simp [markSelections, List.countP_cons, hrp]
        · have hlen : 2 ≤ (markSelections (a :: b :: rest)).length := by
            simp [markSelections]
          rw [if_pos hlen]
          simp [markSelections, List.countP_cons, hrb]
        · constructor
          · intro _
            exact ⟨{ b with selection := "Backup" }, by simp [markSelections],
              rfl⟩
          · intro _
            simp [markSelections]

/-- Witness for C4 at a concrete two-offer list with the default
weights. -/
theorem score_and_rank_ranking_witness :
    ∃ result, score_and_rank_offers [offerFifty, offerHundred]
        ⟨40, 35, 25⟩ = some result ∧
      result.Pairwise
        (fun a b => b.composite_score ≤ a.composite_score) ∧
      List.Perm (result.map stripSel)
        (([offerFifty, offerHundred].map (fun o =>
          scoreOne o [offerFifty, offerHundred] ⟨40, 35, 25⟩)).map stripSel) ∧
      (∀ a b : ScoredOffer,
        [a, b].Sublist ([offerFifty, offerHundred].map (fun o =>
          scoreOne o [offerFifty, offerHundred] ⟨40, 35, 25⟩)) →
        a.composite_score = b.composite_score →
        ([a, b].map stripSel).Sublist (result.map stripSel)) ∧
      ([offerFifty, offerHundred] = [] → result = []) ∧
      ([offerFifty, offerHundred] ≠ [] →
        result.countP (fun so => so.selection == "Primary") = 1 ∧
        result.countP (fun so => so.selection == "Backup") =
          (if 2 ≤ result.length then 1 else 0) ∧
        (2 ≤ result.length ↔ ∃ so ∈ result, so.selection = "Backup")) :=
  score_and_rank_ranking [offerFifty, offerHundred] ⟨40, 35, 25⟩
    (by norm_num)

/-- C7: REMAN keywords take priority — any REMAN keyword occurring in the
uppercased text yields REMANUFACTURED/HIGH even when a NEW phrase also
occurs; only with no REMAN match are the explicit NEW phrases checked
(NEW/HIGH), then a bare "NEW" substring (NEW/MEDIUM), and otherwise the
result is UNKNOWN/LOW with the manual-review flag set. -/
theorem detect_part_condition_priority (s : String) :
    (REMAN_KEYWORDS.any (fun kw => pyIn kw (pyUpper s)) = true →
      (detect_part_condition s).condition = .REMANUFACTURED ∧
      (detect_part_condition s).confidence = .HIGH) ∧
    (REMAN_KEYWORDS.any (fun kw => pyIn kw (pyUpper s)) = false →
      NEW_KEYWORDS.any (fun kw => pyIn kw (pyUpper s)) = true →
      (detect_part_condition s).condition = .NEW ∧
      (detect_part_condition s).confidence = .HIGH) ∧
    (REMAN_KEYWORDS.any (fun kw => pyIn kw (pyUpper s)) = false →
      NEW_KEYWORDS.any (fun kw => pyIn kw (pyUpper s)) = false →
      pyIn "NEW" (pyUpper s) = true →
      (detect_part_condition s).condition = .NEW ∧
      (detect_part_condition s).confidence = .MEDIUM) ∧
    (REMAN_KEYWORDS.any (fun kw => pyIn kw (pyUpper s)) = false →
      NEW_KEYWORDS.any (fun kw => pyIn kw (pyUpper s)) = false →
      pyIn "NEW" (pyUpper s) = false →
      (detect_part_condition s).condition = .UNKNOWN ∧
      (detect_part_condition s).confidence = .LOW ∧
      (detect_part_condition s).requires_manual_selection = true) := by
  by_cases hemp : s = ""
  · subst hemp
    refine ⟨?_, ?_, ?_, ?_⟩
    · intro h
      exact absurd h (by decide)
    · intro _ h
      exact absurd h (by decide)
    · intro _ _ h
      exact absurd h (by decide)
    · intro _ _ _
      exact ⟨rfl, rfl, rfl⟩
  · have hdet : detect_part_condition s =
        (match REMAN_KEYWORDS.find? (fun kw => pyIn kw (pyUpper s)) with
        | some kw =>
          ({ condition := .REMANUFACTURED
             confidence := .HIGH
             matched_keyword := some kw
             display_tag := some "[REMANUFACTURED]"
             requires_manual_selection := false
             flag_color := none } : ConditionResult)
        | none =>
          match NEW_KEYWORDS.find? (fun kw => pyIn kw (pyUpper s)) with
          | some kw =>
            { condition := .NEW
              confidence := .HIGH
              matched_keyword := some kw
              display_tag := some "[NEW]"
              requires_manual_selection := false
              flag_color := none }
          | none =>
            if pyIn "NEW" (pyUpper s) then
              { condition := .NEW
                confidence := .MEDIUM
                matched_keyword := some "NEW"
                display_tag := some "[NEW]"
                requires_manual_selection := false
                flag_color := none }
            else
              { condition := .UNKNOWN
                confidence := .LOW
                matched_keyword := none
                display_tag := none
                requires_manual_selection := true
                flag_color := some "YELLOW" }) := by
      unfold detect_part_condition
      rw [if_neg hemp]
    cases hr : REMAN_KEYWORDS.find? (fun kw => pyIn kw (pyUpper s)) with
    | some kw =>
      have hp : pyIn kw (pyUpper s) = true := by
        have := List.find?_some hr
        simpa using this
      have hany : REMAN_KEYWORDS.any (fun kw => pyIn kw (pyUpper s)) = true :=
        List.any_eq_true.mpr ⟨kw, List.mem_of_find?_eq_some hr, hp⟩
      refine ⟨fun _ => ?_, fun hf => absurd hany (by rw [hf]; exact
        (Bool.false_ne_true ·)), fun hf => absurd hany (by rw [hf]; exact
        (Bool.false_ne_true ·)), fun hf => absurd hany (by rw [hf]; exact
        (Bool.false_ne_true ·))⟩
      rw [hdet, hr]
      exact ⟨rfl, rfl⟩
    | none =>
      have hanyr : REMAN_KEYWORDS.any (fun kw => pyIn kw (pyUpper s))
          = false := by
        rw [List.any_eq_false]
        intro x hx
        have := List.find?_eq_none.mp hr x hx
        simpa using this
      cases hn : NEW_KEYWORDS.find? (fun kw => pyIn kw (pyUpper s)) with
      | some kw =>
        have hp : pyIn kw (pyUpper s) = true := by
          have := List.find?_some hn
          simpa using this
        have hany : NEW_KEYWORDS.any (fun kw => pyIn kw (pyUpper s))
            = true :=
          List.any_eq_true.mpr ⟨kw, List.mem_of_find?_eq_some hn, hp⟩
        refine ⟨fun h => absurd h (by rw [hanyr]; exact
          (Bool.false_ne_true ·)), fun _ _ => ?_,
          fun _ hf => absurd hany (by rw [hf]; exact
            (Bool.false_ne_true ·)),
          fun _ hf => absurd hany (by rw [hf]; exact
            (Bool.false_ne_true ·))⟩
        rw [hdet, hr, hn]
        exact ⟨rfl, rfl⟩
      | none =>
        have hanyn : NEW_KEYWORDS.any (fun kw => pyIn kw (pyUpper s))
            = false := by
          rw [List.any_eq_false]
          intro x hx
          have := List.find?_eq_none.mp hn x hx
          simpa using this
        refine ⟨fun h => absurd h (by rw [hanyr]; exact
          (Bool.false_ne_true ·)),
          fun _ h => absurd h (by rw [hanyn]; exact
            (Bool.false_ne_true ·)), fun _ _ hnew => ?_, fun _ _ hnew => ?_⟩
        · rw [hdet, hr, hn, if_pos hnew]
          exact ⟨rfl, rfl⟩
        · rw [hdet, hr, hn, if_neg (by simp [hnew])]
          exact ⟨rfl, rfl, rfl⟩

/-- Witness for C7 exercising all four branches: a REMAN+NEW text, an
explicit NEW phrase, a bare NEW, and an unknown text. -/
theorem detect_part_condition_priority_witness :
    ((detect_part_condition "Reman alternator 100% NEW").condition
      = .REMANUFACTURED ∧
     (detect_part_condition "Reman alternator 100% NEW").confidence
      = .HIGH) ∧
    ((detect_part_condition "100% new pads").condition = .NEW ∧
     (detect_part_condition "100% new pads").confidence = .HIGH) ∧
    ((detect_part_condition "new rotor").condition = .NEW ∧
     (detect_part_condition "new rotor").confidence = .MEDIUM) ∧
    ((detect_part_condition "rotor").condition = .UNKNOWN ∧
     (detect_part_condition "rotor").confidence = .LOW ∧
     (detect_part_condition "rotor").requires_manual_selection = true) :=
  ⟨(detect_part_condition_priority "Reman alternator 100% NEW").1
      (by decide),
   (detect_part_condition_priority "100% new pads").2.1 (by decide)
      (by decide),
   (detect_part_condition_priority "new rotor").2.2.1 (by decide)
      (by decide) (by decide),
   (detect_part_condition_priority "rotor").2.2.2 (by decide) (by decide)
      (by decide)⟩

theorem ruleKeywordLoop_fires (kws : List String) (rule : AddOnRule)
    (text : List Char) (st : List String × List AddOnItem) :
    ruleKeywordLoop kws rule text st =
      if kws.any (fun kw => containsSub (lowerChars kw) text)
      then (st.1 ++ [rule.name],
        addItemsDedup st.2 rule.name rule.add_items)
      else st := by
  induction kws with
  | nil => simp [ruleKeywordLoop]
  | cons kw rest ih =>
    by_cases h : containsSub (lowerChars kw) text = true
    · simp [ruleKeywordLoop, h]
    · simp only [Bool.not_eq_true] at h
      simp [ruleKeywordLoop, h, ih]

theorem nodup_addItemsDedup (rule_name : String) :
    ∀ (items : List AddOnSpec) (acc : List AddOnItem),
    (acc.map (·.part_number)).Nodup →
    ((addItemsDedup acc rule_name items).map (·.part_number)).Nodup := by
  intro items
  induction items with
  | nil => exact fun acc h => h
  | cons it rest ih =>
    intro acc h
    rw [show addItemsDedup acc rule_name (it :: rest) =
        addItemsDedup
          (if acc.any (fun a => a.part_number == it.part_number) then acc
           else acc ++ [mkAddOn rule_name it]) rule_name rest from rfl]
    by_cases hdup : acc.any (fun a => a.part_number == it.part_number) = true
    · rw [if_pos hdup]
      exact ih acc h
    · simp only [Bool.not_eq_true] at hdup
      rw [if_neg (by simp [hdup])]
      apply ih
      rw [List.map_append]
      rw [List.nodup_append]
      refine ⟨h, by simp, ?_⟩
      intro x hx
      simp only [List.map_cons, List.map_nil, List.mem_singleton]
      intro hx2
      obtain ⟨a, ha, rfl⟩ := List.mem_map.mp hx
      have := List.any_eq_false.mp hdup a ha
      simp only [beq_iff_eq] at this
      exact this (by simpa [mkAddOn] using hx2)

theorem nodup_rulesFold (text : List Char) :
    ∀ (rules : List AddOnRule) (st : List String × List AddOnItem),
    (st.2.map (·.part_number)).Nodup →
    (((rules.foldl
      (fun st rule => ruleKeywordLoop rule.keywords rule text st)
      st)).2.map (·.part_number)).Nodup := by
  intro rules
  induction rules with
  | nil => exact fun st h => h
  | cons r rs ih =>
    intro st h
    rw [List.foldl_cons]
    apply ih
    rw [ruleKeywordLoop_fires]
    by_cases hfire : r.keywords.any
        (fun kw => containsSub (lowerChars kw) text) = true
    · rw [if_pos hfire]
      exact nodup_addItemsDedup r.name r.add_items st.2 h
    · simp only [Bool.not_eq_true] at hfire
      rw [if_neg (by simp [hfire])]
      exact h

theorem addons_total_eq (l : List AddOnItem) (init : ℚ) :
    l.foldl (fun t it => t + it.price * (it.quantity : ℚ)) init =
      init + (l.map (fun it => it.price * (it.quantity : ℚ))).sum := by
  induction l generalizing init with
  | nil => simp
  | cons it rest ih =>
    rw [List.foldl_cons, ih, List.map_cons, List.sum_cons]
    ring

/-- C8: the detected add-on list never contains two items with the same
part number (first occurrence wins across firing rules); the inner
keyword loop fires a rule at most once — via several matching keywords it
contributes its item list exactly as via one; and the returned
`total_price` is the sum of price × quantity over the deduplicated
add-on items. -/
theorem detect_addons_spec (service_request : String)
    (labor_procedures : List String) :
    ((detect_addons service_request labor_procedures).addons.map
      (·.part_number)).Nodup ∧
    (detect_addons service_request labor_procedures).total_price =
      ((detect_addons service_request labor_procedures).addons.map
        (fun a => a.price * (a.quantity : ℚ))).sum ∧
    (∀ (kws : List String) (rule : AddOnRule) (text : List Char)
      (st : List String × List AddOnItem),
      ruleKeywordLoop kws rule text st =
        if kws.any (fun kw => containsSub (lowerChars kw) text)
        then (st.1 ++ [rule.name],
          addItemsDedup st.2 rule.name rule.add_items)
        else st) := by
  refine ⟨?_, ?_, ruleKeywordLoop_fires⟩
  · exact nodup_rulesFold _ ADD_ON_RULES ([], []) (by simp)
  · rw [show (detect_addons service_request labor_procedures).total_price
        = ((detect_addons service_request labor_procedures).addons).foldl
          (fun t it => t + it.price * (it.quantity : ℚ)) 0 from rfl]
    rw [addons_total_eq]
    exact zero_add _

end Estimaro
